import Mathlib

/-!
# BarbelEngine: window lifecycle and run loop

A shallow embedding of `Engine/src/Window.cpp`, `Engine/src/Engine.cpp` and
`Sandbox/src/Main.cpp`.

The native libraries (GLFW, GLAD) are external collaborators.  Their calls are
recorded, in program order, in a `World`; their results are supplied by a
`Native` record of outcomes (fault injection), and the answers of
`Window::ShouldClose`, which is declared in `Window.h` but has no body in the
repository, by a scripted answer function indexed by call number.
-/

set_option linter.dupNamespace false

namespace Engine

/-! ## Data model -/

/-- A `GLFWwindow*` value.  `indeterminate` is the value of a pointer member
that was never initialised nor assigned. -/
inductive Ptr where
  | null
  | handle (id : Nat)
  | indeterminate
  deriving DecidableEq, Repr

/-- The C++ test `!p` for a pointer holding a determinate value. -/
def Ptr.isNull : Ptr → Bool
  | .null => true
  | _ => false

/-- Calls into the native libraries, with their arguments. -/
inductive NativeCall where
  | glfwInit
  | glfwCreateWindow (width height : Int) (title : String)
  | glfwMakeContextCurrent (window : Ptr)
  | gladLoadGLLoader
  | glfwTerminate
  | glfwDestroyWindow (window : Ptr)
  | glfwSwapBuffers (window : Ptr)
  | glfwPollEvents
  deriving DecidableEq, Repr

/-- Member functions of `Window` that `Engine::Run` invokes. -/
inductive WindowCall where
  | ShouldClose
  | SwapBuffers
  | PollEvents
  deriving DecidableEq, Repr

/-- Results returned by the native steps of one construction attempt.
`glfwCreateWindow = none` stands for a returned `nullptr`. -/
structure Native where
  glfwInit : Bool
  glfwCreateWindow : Option Nat
  gladLoadGLLoader : Bool
  deriving DecidableEq, Repr

/-- Observable process state: the native calls made so far (oldest first), the
lines written to `std::cerr`, the `Window` member calls made by the engine, and
the number of `ShouldClose` queries answered so far. -/
structure World where
  native : List NativeCall
  cerr : List String
  window : List WindowCall
  queries : Nat
  deriving DecidableEq, Repr

/-- The state of a fresh process. -/
def World.start : World := ⟨[], [], [], 0⟩

/-- Record one native call. -/
def World.call (s : World) (c : NativeCall) : World :=
  { s with native := s.native ++ [c] }

/-- The statement `std::cerr << line << std::endl`. -/
def World.err (s : World) (line : String) : World :=
  { s with cerr := s.cerr ++ [line] }

/-- Record one `Window` member call. -/
def World.member (s : World) (c : WindowCall) : World :=
  { s with window := s.window ++ [c] }

/-! ## Native library (test double) -/

def glfwInit (n : Native) (s : World) : Bool × World :=
  (n.glfwInit, s.call .glfwInit)

def glfwCreateWindow (n : Native) (width height : Int) (title : String) (s : World) :
    Ptr × World :=
  (match n.glfwCreateWindow with
    | some id => Ptr.handle id
    | none => Ptr.null,
   s.call (.glfwCreateWindow width height title))

def glfwMakeContextCurrent (window : Ptr) (s : World) : World :=
  s.call (.glfwMakeContextCurrent window)

def gladLoadGLLoader (n : Native) (s : World) : Bool × World :=
  (n.gladLoadGLLoader, s.call .gladLoadGLLoader)

def glfwTerminate (s : World) : World :=
  s.call .glfwTerminate

def glfwDestroyWindow (window : Ptr) (s : World) : World :=
  s.call (.glfwDestroyWindow window)

def glfwSwapBuffers (window : Ptr) (s : World) : World :=
  s.call (.glfwSwapBuffers window)

def glfwPollEvents (s : World) : World :=
  s.call .glfwPollEvents

/-! ## `class Window` (Window.h, Window.cpp) -/

/-- The private members of `class Window`. -/
structure Window where
  window : Ptr
  width : Int
  height : Int
  deriving DecidableEq, Repr

/-- Constructor `Window::Window(int width, int height, const char* title)`.
The member initialisers set `width` and `height`; `window` has no
initialiser, so it is indeterminate until the assignment on line 12. -/
def Window.Construct (n : Native) (width height : Int) (title : String) (s : World) :
    Window × World :=
  let self : Window := { window := .indeterminate, width := width, height := height }
  let (ok, s) := glfwInit n s
  if !ok then
    (self, s.err "Failed to initialize GLFW")
  else
    let (w, s) := glfwCreateWindow n width height title s
    let self := { self with window := w }
    if self.window.isNull then
      let s := s.err "Failed to create GLFW window"
      let s := glfwTerminate s
      (self, s)
    else
      let s := glfwMakeContextCurrent self.window s
      let (loaded, s) := gladLoadGLLoader n s
      if !loaded then
        (self, s.err "Failed to initialize GLAD")
      else
        (self, s)

/-- Destructor `Window::~Window()`. -/
def Window.Destruct (self : Window) (s : World) : World :=
  let s := glfwDestroyWindow self.window s
  glfwTerminate s

/-- Member `void Window::PollEvents()`. -/
def Window.PollEvents (self : Window) (s : World) : Window × World :=
  (self, glfwPollEvents (s.member .PollEvents))

/-- Member `void Window::SwapBuffers()`. -/
def Window.SwapBuffers (self : Window) (s : World) : Window × World :=
  (self, glfwSwapBuffers self.window (s.member .SwapBuffers))

/-- Member `bool Window::ShouldClose()`: declared in `Window.h`, no body in the
repository.  Its answers are taken as a parameter: `answers k` is what the
call number `k` (counted from 0) returns. -/
def Window.ShouldClose (answers : Nat → Bool) (self : Window) (s : World) :
    Bool × Window × World :=
  (answers s.queries, self, { s.member .ShouldClose with queries := s.queries + 1 })

/-- Modelled from the spec: `Window::GetWidth` is declared in `Window.h` and
has no body in the repository; the spec has it return the width recorded at
construction. -/
def Window.GetWidth (self : Window) : Int := self.width

/-- Modelled from the spec: `Window::GetHeight` is declared in `Window.h` and
has no body in the repository; the spec has it return the height recorded at
construction. -/
def Window.GetHeight (self : Window) : Int := self.height

/-- A later use of a window: one `PollEvents` or one `SwapBuffers` call. -/
inductive Use where
  | PollEvents
  | SwapBuffers
  deriving DecidableEq, Repr

/-- Perform one use. -/
def Window.use (p : Window × World) : Use → Window × World
  | .PollEvents => p.1.PollEvents p.2
  | .SwapBuffers => p.1.SwapBuffers p.2

/-- Perform a sequence of uses, in order. -/
def Window.uses (self : Window) (s : World) (us : List Use) : Window × World :=
  us.foldl Window.use (self, s)

/-! ## `class Engine` (Engine.h, Engine.cpp) -/

/-- The private member of `class Engine`: the owned `Window`. -/
structure Engine where
  window : Window
  deriving DecidableEq, Repr

/-- Constructor `Engine::Engine(int, int, const char*)`: `std::make_unique<Window>(...)`. -/
def Engine.Construct (n : Native) (windowWidth windowHeight : Int) (windowTitle : String)
    (s : World) : Engine × World :=
  let (w, s) := Window.Construct n windowWidth windowHeight windowTitle s
  ({ window := w }, s)

/-- Destructor `Engine::~Engine() = default`: releases the owned `Window`. -/
def Engine.Destruct (self : Engine) (s : World) : World :=
  self.window.Destruct s

/-- Member `void Engine::Run()`.  The `while` loop is unrolled at most `fuel` times
(one unit per evaluation of the loop condition); `none` means the loop had not
exited by then. -/
def Engine.Run (answers : Nat → Bool) : Nat → Engine → World → Option (Engine × World)
  | 0, _, _ => none
  | fuel + 1, self, s =>
    let (close, w, s) := self.window.ShouldClose answers s
    let self := { self with window := w }
    if !close then
      let (w, s) := self.window.SwapBuffers s
      let self := { self with window := w }
      let (w, s) := self.window.PollEvents s
      let self := { self with window := w }
      Engine.Run answers fuel self s
    else
      some (self, s)

end Engine

/-! ## Process entry point (Sandbox/src/Main.cpp) -/

namespace Sandbox

def WINDOW_WIDTH : Int := 800
def WINDOW_HEIGHT : Int := 600
def WINDOW_TITLE : String := "Sandbox"

/-- Entry point `int main()`: the exit status together with the final world, or `none` when
`Run` had not returned within `fuel` loop tests.  The local `engine` is
destroyed when `main` returns. -/
def main (n : Engine.Native) (answers : Nat → Bool) (fuel : Nat) (s : Engine.World) :
    Option (Int × Engine.World) :=
  let (engine, s) := Engine.Engine.Construct n WINDOW_WIDTH WINDOW_HEIGHT WINDOW_TITLE s
  match engine.Run answers fuel s with
  | none => none
  | some (engine, s) =>
    let s := engine.Destruct s
    some (0, s)

end Sandbox

namespace Engine

/-- One lifetime of a `Window`: construction followed by one destruction. -/
def Window.lifetime (n : Native) (width height : Int) (title : String) (s : World) : World :=
  let (self, s) := Window.Construct n width height title s
  self.Destruct s

/-! ## Helper lemmas -/

/-- The `Window` member calls made by `k` iterations of the loop body, each
preceded by its loop test. -/
def iterations (k : Nat) : List WindowCall :=
  (List.replicate k [WindowCall.ShouldClose, WindowCall.SwapBuffers, WindowCall.PollEvents]).flatten

/-- The native calls made by `k` iterations of the loop body. -/
def frames (window : Ptr) (k : Nat) : List NativeCall :=
  (List.replicate k [NativeCall.glfwSwapBuffers window, NativeCall.glfwPollEvents]).flatten

theorem iterations_succ (k : Nat) :
    iterations (k + 1)
      = [WindowCall.ShouldClose, WindowCall.SwapBuffers, WindowCall.PollEvents] ++ iterations k := by
  simp [iterations, List.replicate_succ]

theorem frames_succ (window : Ptr) (k : Nat) :
    frames window (k + 1)
      = [NativeCall.glfwSwapBuffers window, NativeCall.glfwPollEvents] ++ frames window k := by
  simp [frames, List.replicate_succ]

theorem count_swap_iterations (k : Nat) :
    (iterations k ++ [WindowCall.ShouldClose]).count WindowCall.SwapBuffers = k := by
  induction k with
  | zero => simp [iterations]
  | succ k ih =>
    rw [iterations_succ, List.append_assoc, List.count_append, ih]
    simp [List.count_cons]
    omega

theorem count_poll_iterations (k : Nat) :
    (iterations k ++ [WindowCall.ShouldClose]).count WindowCall.PollEvents = k := by
  induction k with
  | zero => simp [iterations]
  | succ k ih =>
    rw [iterations_succ, List.append_assoc, List.count_append, ih]
    simp [List.count_cons]
    omega

/-- The loop, run from any state in which the next `k` answers are `false` and
the one after is `true`, exits with fuel to spare and leaves this record. -/
theorem Run_unroll (answers : Nat → Bool) (k : Nat) :
    ∀ (fuel : Nat) (self : Engine) (s : World),
      (∀ i, i < k → answers (s.queries + i) = false) →
      answers (s.queries + k) = true →
      k < fuel →
      Engine.Run answers fuel self s
        = some (self,
            { native := s.native ++ frames self.window.window k,
              cerr := s.cerr,
              window := s.window ++ iterations k ++ [WindowCall.ShouldClose],
              queries := s.queries + k + 1 }) := by
  induction k with
  | zero =>
    intro fuel self s _ htrue hfuel
    obtain ⟨f, rfl⟩ : ∃ f, fuel = f + 1 := ⟨fuel - 1, by omega⟩
    have h0 : answers s.queries = true := by simpa using htrue
    simp [Engine.Run, Window.ShouldClose, h0, World.member, frames, iterations]
  | succ k ih =>
    intro fuel self s hfalse htrue hfuel
    obtain ⟨f, rfl⟩ : ∃ f, fuel = f + 1 := ⟨fuel - 1, by omega⟩
    have h0 : answers s.queries = false := by simpa using hfalse 0 (by omega)
    have hstep := ih f self
      { native := s.native ++ [NativeCall.glfwSwapBuffers self.window.window,
                               NativeCall.glfwPollEvents],
        cerr := s.cerr,
        window := s.window ++ [WindowCall.ShouldClose, WindowCall.SwapBuffers,
                               WindowCall.PollEvents],
        queries := s.queries + 1 }
      (by
        intro i hi
        have := hfalse (i + 1) (by omega)
        simpa [Nat.add_assoc, Nat.add_comm 1 i] using this)
      (by simpa [Nat.add_assoc, Nat.add_comm 1 k] using htrue)
      (by omega)
    simp only [Engine.Run, Window.ShouldClose, Window.SwapBuffers, Window.PollEvents,
      glfwSwapBuffers, glfwPollEvents, World.member, World.call, h0]
    simp only [Bool.not_false, if_true, List.append_assoc, List.cons_append, List.nil_append,
      List.singleton_append] at hstep ⊢
    rw [hstep, iterations_succ, frames_succ]
    simp [Nat.add_assoc, Nat.add_comm 1 k]

/-- The constructor leaves the record of `Window` member calls and the count of
answered `ShouldClose` queries untouched. -/
theorem Construct_frame (n : Native) (width height : Int) (title : String) (s : World) :
    (Window.Construct n width height title s).2.window = s.window ∧
    (Window.Construct n width height title s).2.queries = s.queries := by
  rcases n with ⟨i, c, l⟩
  cases i <;> cases c <;> cases l <;>
    simp [Window.Construct, glfwInit, glfwCreateWindow, glfwMakeContextCurrent,
      gladLoadGLLoader, glfwTerminate, World.call, World.err, Ptr.isNull]

/-- What the constructor appends to the error stream, by outcome. -/
theorem Construct_cerr (n : Native) (width height : Int) (title : String) (s : World) :
    (Window.Construct n width height title s).2.cerr
      = s.cerr ++ (if n.glfwInit = false then ["Failed to initialize GLFW"]
                   else if n.glfwCreateWindow = none then ["Failed to create GLFW window"]
                   else if n.gladLoadGLLoader = false then ["Failed to initialize GLAD"]
                   else []) := by
  rcases n with ⟨i, c, l⟩
  cases i <;> cases c <;> cases l <;>
    simp [Window.Construct, glfwInit, glfwCreateWindow, glfwMakeContextCurrent,
      gladLoadGLLoader, glfwTerminate, World.call, World.err, Ptr.isNull]

/-- Neither `PollEvents` nor `SwapBuffers` writes a member of the `Window`. -/
theorem uses_self (us : List Use) : ∀ (self : Window) (s : World),
    (Window.uses self s us).1 = self := by
  induction us with
  | nil => intro self s; rfl
  | cons u us ih =>
    intro self s
    cases u
    · exact ih self (glfwPollEvents (s.member WindowCall.PollEvents))
    · exact ih self (glfwSwapBuffers self.window (s.member WindowCall.SwapBuffers))

/-! ## The run loop -/

/-- C1: when `ShouldClose` answers `false` for its next `n` calls and `true` on
the call after, `Engine::Run` returns (any fuel above `n` suffices) and the
`Window` member calls it made are exactly `n` repetitions of `ShouldClose`,
`SwapBuffers`, `PollEvents` followed by one final `ShouldClose`; `SwapBuffers`
and `PollEvents` each occur exactly `n` times in that sequence. -/
theorem Run_calls (answers : Nat → Bool) (n : Nat) (self : Engine) (s : World) (fuel : Nat)
    (hfalse : ∀ i, i < n → answers (s.queries + i) = false)
    (htrue : answers (s.queries + n) = true)
    (hfuel : n < fuel) :
    ∃ s1 made,
      Engine.Run answers fuel self s = some (self, s1) ∧
      made = (List.replicate n
                [WindowCall.ShouldClose, WindowCall.SwapBuffers, WindowCall.PollEvents]).flatten
              ++ [WindowCall.ShouldClose] ∧
      s1.window = s.window ++ made ∧
      made.count WindowCall.SwapBuffers = n ∧
      made.count WindowCall.PollEvents = n := by
  refine ⟨_, _, Run_unroll answers n fuel self s hfalse htrue hfuel, rfl, ?_, ?_, ?_⟩
  · simp [iterations]
  · exact count_swap_iterations n
  · exact count_poll_iterations n

/-- Witness for C1: three `false` answers, then `true`, from a fresh process. -/
theorem Run_calls_witness :
    ∃ s1 made,
      Engine.Run (fun k => decide (3 ≤ k)) 4 ⟨⟨Ptr.handle 1, 800, 600⟩⟩ World.start
        = some (⟨⟨Ptr.handle 1, 800, 600⟩⟩, s1) ∧
      made = (List.replicate 3
                [WindowCall.ShouldClose, WindowCall.SwapBuffers, WindowCall.PollEvents]).flatten
              ++ [WindowCall.ShouldClose] ∧
      s1.window = World.start.window ++ made ∧
      made.count WindowCall.SwapBuffers = 3 ∧
      made.count WindowCall.PollEvents = 3 :=
  Run_calls (fun k => decide (3 ≤ k)) 3 ⟨⟨Ptr.handle 1, 800, 600⟩⟩ World.start 4
    (by intro i hi; simp [World.start]; omega) (by simp [World.start]) (by decide)

/-! ## Window construction -/

/-- C2: when every native step succeeds, the constructor makes exactly the
native calls `glfwInit`, `glfwCreateWindow width height title`,
`glfwMakeContextCurrent` on the created window, `gladLoadGLLoader`, in this
order and once each; no teardown call is among them. -/
theorem Construct_success_calls (n : Native) (width height : Int) (title : String)
    (s : World) (id : Nat)
    (hinit : n.glfwInit = true) (hcreate : n.glfwCreateWindow = some id)
    (hload : n.gladLoadGLLoader = true) :
    (Window.Construct n width height title s).2.native
      = s.native ++ [NativeCall.glfwInit, NativeCall.glfwCreateWindow width height title,
                     NativeCall.glfwMakeContextCurrent (Ptr.handle id),
                     NativeCall.gladLoadGLLoader] := by
  simp [Window.Construct, glfwInit, glfwCreateWindow, glfwMakeContextCurrent, gladLoadGLLoader,
    World.call, Ptr.isNull, hinit, hcreate, hload]

/-- Witness for C2. -/
theorem Construct_success_calls_witness :
    (Window.Construct ⟨true, some 7, true⟩ 800 600 "Sandbox" World.start).2.native
      = World.start.native ++ [NativeCall.glfwInit, NativeCall.glfwCreateWindow 800 600 "Sandbox",
                     NativeCall.glfwMakeContextCurrent (Ptr.handle 7),
                     NativeCall.gladLoadGLLoader] :=
  Construct_success_calls ⟨true, some 7, true⟩ 800 600 "Sandbox" World.start 7 rfl rfl rfl

/-- C3: when `glfwInit` succeeds and `glfwCreateWindow` returns null, the
constructor writes the diagnostic "Failed to create GLFW window", and its
native calls are exactly `glfwInit`, `glfwCreateWindow`, `glfwTerminate`: one
teardown, no context activation and no loader call. -/
theorem Construct_create_failure (n : Native) (width height : Int) (title : String)
    (s : World)
    (hinit : n.glfwInit = true) (hcreate : n.glfwCreateWindow = none) :
    (Window.Construct n width height title s).2.native
      = s.native ++ [NativeCall.glfwInit, NativeCall.glfwCreateWindow width height title,
                     NativeCall.glfwTerminate] ∧
    (Window.Construct n width height title s).2.cerr
      = s.cerr ++ ["Failed to create GLFW window"] ∧
    (Window.Construct n width height title s).1.window = Ptr.null := by
  simp [Window.Construct, glfwInit, glfwCreateWindow, glfwTerminate,
    World.call, World.err, Ptr.isNull, hinit, hcreate]

/-- Witness for C3. -/
theorem Construct_create_failure_witness :
    (Window.Construct ⟨true, none, true⟩ 800 600 "Sandbox" World.start).2.native
      = World.start.native ++ [NativeCall.glfwInit, NativeCall.glfwCreateWindow 800 600 "Sandbox",
                     NativeCall.glfwTerminate] ∧
    (Window.Construct ⟨true, none, true⟩ 800 600 "Sandbox" World.start).2.cerr
      = World.start.cerr ++ ["Failed to create GLFW window"] ∧
    (Window.Construct ⟨true, none, true⟩ 800 600 "Sandbox" World.start).1.window = Ptr.null :=
  Construct_create_failure ⟨true, none, true⟩ 800 600 "Sandbox" World.start rfl rfl

/-- C4: when `glfwInit` returns false, the constructor writes the diagnostic
"Failed to initialize GLFW" and `glfwInit` is the only native call it makes: no
window creation, no context activation, no loader call and no teardown. -/
theorem Construct_init_failure (n : Native) (width height : Int) (title : String)
    (s : World) (hinit : n.glfwInit = false) :
    (Window.Construct n width height title s).2.native = s.native ++ [NativeCall.glfwInit] ∧
    (Window.Construct n width height title s).2.cerr
      = s.cerr ++ ["Failed to initialize GLFW"] := by
  simp [Window.Construct, glfwInit, World.call, World.err, hinit]

/-- Witness for C4. -/
theorem Construct_init_failure_witness :
    (Window.Construct ⟨false, some 7, true⟩ 800 600 "Sandbox" World.start).2.native
      = World.start.native ++ [NativeCall.glfwInit] ∧
    (Window.Construct ⟨false, some 7, true⟩ 800 600 "Sandbox" World.start).2.cerr
      = World.start.cerr ++ ["Failed to initialize GLFW"] :=
  Construct_init_failure ⟨false, some 7, true⟩ 800 600 "Sandbox" World.start rfl

/-- C9: when init and window creation succeed and `gladLoadGLLoader` returns
false, the constructor writes the diagnostic "Failed to initialize GLAD", keeps
the created handle, and its native calls are exactly `glfwInit`,
`glfwCreateWindow`, `glfwMakeContextCurrent`, `gladLoadGLLoader`: neither
`glfwDestroyWindow` nor `glfwTerminate` is issued. -/
theorem Construct_loader_failure (n : Native) (width height : Int) (title : String)
    (s : World) (id : Nat)
    (hinit : n.glfwInit = true) (hcreate : n.glfwCreateWindow = some id)
    (hload : n.gladLoadGLLoader = false) :
    (Window.Construct n width height title s).2.native
      = s.native ++ [NativeCall.glfwInit, NativeCall.glfwCreateWindow width height title,
                     NativeCall.glfwMakeContextCurrent (Ptr.handle id),
                     NativeCall.gladLoadGLLoader] ∧
    (Window.Construct n width height title s).2.cerr
      = s.cerr ++ ["Failed to initialize GLAD"] ∧
    (Window.Construct n width height title s).1.window = Ptr.handle id := by
  simp [Window.Construct, glfwInit, glfwCreateWindow, glfwMakeContextCurrent, gladLoadGLLoader,
    World.call, World.err, Ptr.isNull, hinit, hcreate, hload]

/-- Witness for C9. -/
theorem Construct_loader_failure_witness :
    (Window.Construct ⟨true, some 7, false⟩ 800 600 "Sandbox" World.start).2.native
      = World.start.native ++ [NativeCall.glfwInit, NativeCall.glfwCreateWindow 800 600 "Sandbox",
                     NativeCall.glfwMakeContextCurrent (Ptr.handle 7),
                     NativeCall.gladLoadGLLoader] ∧
    (Window.Construct ⟨true, some 7, false⟩ 800 600 "Sandbox" World.start).2.cerr
      = World.start.cerr ++ ["Failed to initialize GLAD"] ∧
    (Window.Construct ⟨true, some 7, false⟩ 800 600 "Sandbox" World.start).1.window
      = Ptr.handle 7 :=
  Construct_loader_failure ⟨true, some 7, false⟩ 800 600 "Sandbox" World.start 7 rfl rfl rfl

/-- C10: for every combination of native-step outcomes the constructor appends
to the error stream exactly the diagnostic of the first failing step, and
nothing when every step succeeds; the three diagnostics are pairwise distinct.
The constructor has no aborting path: it is a total function of its inputs. -/
theorem Construct_diagnostics (n : Native) (width height : Int) (title : String) (s : World) :
    (Window.Construct n width height title s).2.cerr
      = s.cerr ++ (if n.glfwInit = false then ["Failed to initialize GLFW"]
                   else if n.glfwCreateWindow = none then ["Failed to create GLFW window"]
                   else if n.gladLoadGLLoader = false then ["Failed to initialize GLAD"]
                   else []) ∧
    "Failed to initialize GLFW" ≠ "Failed to create GLFW window" ∧
    "Failed to initialize GLFW" ≠ "Failed to initialize GLAD" ∧
    "Failed to create GLFW window" ≠ "Failed to initialize GLAD" := by
  exact ⟨Construct_cerr n width height title s, by decide, by decide, by decide⟩

/-! ## Dimensions -/

/-- C7: for `width > 0`, `height > 0` and a non-empty title, after a successful
construction `GetWidth` returns `width` and `GetHeight` returns `height`, and
they still do after any sequence of `PollEvents` and `SwapBuffers` calls. -/
theorem GetWidth_GetHeight_recorded (n : Native) (width height : Int) (title : String)
    (s : World) (id : Nat) (us : List Use)
    (_hwidth : 0 < width) (_hheight : 0 < height) (_htitle : title ≠ "")
    (hinit : n.glfwInit = true) (hcreate : n.glfwCreateWindow = some id)
    (hload : n.gladLoadGLLoader = true) :
    (Window.Construct n width height title s).1.GetWidth = width ∧
    (Window.Construct n width height title s).1.GetHeight = height ∧
    (Window.uses (Window.Construct n width height title s).1
        (Window.Construct n width height title s).2 us).1.GetWidth = width ∧
    (Window.uses (Window.Construct n width height title s).1
        (Window.Construct n width height title s).2 us).1.GetHeight = height := by
  have hw : (Window.Construct n width height title s).1.GetWidth = width := by
    simp [Window.Construct, Window.GetWidth, glfwInit, glfwCreateWindow, glfwMakeContextCurrent,
      gladLoadGLLoader, Ptr.isNull, hinit, hcreate, hload]
  have hh : (Window.Construct n width height title s).1.GetHeight = height := by
    simp [Window.Construct, Window.GetHeight, glfwInit, glfwCreateWindow,
      glfwMakeContextCurrent, gladLoadGLLoader, Ptr.isNull, hinit, hcreate, hload]
  refine ⟨hw, hh, ?_, ?_⟩
  · rw [uses_self]; exact hw
  · rw [uses_self]; exact hh

/-- Witness for C7: an 800 by 600 window used for two frames. -/
theorem GetWidth_GetHeight_recorded_witness :
    (Window.Construct ⟨true, some 7, true⟩ 800 600 "Sandbox" World.start).1.GetWidth = 800 ∧
    (Window.Construct ⟨true, some 7, true⟩ 800 600 "Sandbox" World.start).1.GetHeight = 600 ∧
    (Window.uses (Window.Construct ⟨true, some 7, true⟩ 800 600 "Sandbox" World.start).1
        (Window.Construct ⟨true, some 7, true⟩ 800 600 "Sandbox" World.start).2
        [Use.SwapBuffers, Use.PollEvents, Use.SwapBuffers, Use.PollEvents]).1.GetWidth = 800 ∧
    (Window.uses (Window.Construct ⟨true, some 7, true⟩ 800 600 "Sandbox" World.start).1
        (Window.Construct ⟨true, some 7, true⟩ 800 600 "Sandbox" World.start).2
        [Use.SwapBuffers, Use.PollEvents, Use.SwapBuffers, Use.PollEvents]).1.GetHeight = 600 :=
  GetWidth_GetHeight_recorded ⟨true, some 7, true⟩ 800 600 "Sandbox" World.start 7
    [Use.SwapBuffers, Use.PollEvents, Use.SwapBuffers, Use.PollEvents]
    (by decide) (by decide) (by decide) rfl rfl rfl

/-! ## Window destruction -/

/-- C8: destroying a successfully constructed `Window` makes exactly two native
calls, in this order: `glfwDestroyWindow` on the handle created at
construction, then `glfwTerminate`. -/
theorem Destruct_calls (n : Native) (width height : Int) (title : String)
    (s s2 : World) (id : Nat)
    (hinit : n.glfwInit = true) (hcreate : n.glfwCreateWindow = some id)
    (hload : n.gladLoadGLLoader = true) :
    ((Window.Construct n width height title s).1.Destruct s2).native
      = s2.native ++ [NativeCall.glfwDestroyWindow (Ptr.handle id), NativeCall.glfwTerminate] := by
  simp [Window.Construct, Window.Destruct, glfwInit, glfwCreateWindow, glfwMakeContextCurrent,
    gladLoadGLLoader, glfwDestroyWindow, glfwTerminate, World.call, Ptr.isNull,
    hinit, hcreate, hload]

/-- Witness for C8. -/
theorem Destruct_calls_witness :
    ((Window.Construct ⟨true, some 7, true⟩ 800 600 "Sandbox" World.start).1.Destruct
        World.start).native
      = World.start.native
          ++ [NativeCall.glfwDestroyWindow (Ptr.handle 7), NativeCall.glfwTerminate] :=
  Destruct_calls ⟨true, some 7, true⟩ 800 600 "Sandbox" World.start World.start 7 rfl rfl rfl

/-- C5 (evaluation at the failing inputs): over one lifetime in which
`glfwCreateWindow` returns null, `glfwTerminate` is called twice for one
successful `glfwInit` and `glfwDestroyWindow` is issued on the null pointer;
over one lifetime in which `glfwInit` fails, `glfwTerminate` is called once for
no successful init and `glfwDestroyWindow` is issued on the never-assigned
`window` member. -/
theorem lifetime_failed_construction_calls :
    (Window.lifetime ⟨true, none, true⟩ 800 600 "Sandbox" World.start).native
      = [NativeCall.glfwInit, NativeCall.glfwCreateWindow 800 600 "Sandbox",
         NativeCall.glfwTerminate,
         NativeCall.glfwDestroyWindow Ptr.null, NativeCall.glfwTerminate] ∧
    (Window.lifetime ⟨true, none, true⟩ 800 600 "Sandbox" World.start).native.count
        NativeCall.glfwTerminate = 2 ∧
    (Window.lifetime ⟨false, none, true⟩ 800 600 "Sandbox" World.start).native
      = [NativeCall.glfwInit,
         NativeCall.glfwDestroyWindow Ptr.indeterminate, NativeCall.glfwTerminate] := by
  decide

/-! ## Process entry point -/

/-- C6 (counterexample): with `glfwInit` failing and `ShouldClose` answering
`false` once and then `true`, `main` still enters `Run`, calls `SwapBuffers`
and `PollEvents` on the unusable window, and returns status 0. -/
theorem main_enters_Run_after_failure :
    Sandbox.main ⟨false, none, false⟩ (fun k => decide (1 ≤ k)) 2 World.start
      = some (0,
          { native := [NativeCall.glfwInit,
                       NativeCall.glfwSwapBuffers Ptr.indeterminate, NativeCall.glfwPollEvents,
                       NativeCall.glfwDestroyWindow Ptr.indeterminate,
                       NativeCall.glfwTerminate],
            cerr := ["Failed to initialize GLFW"],
            window := [WindowCall.ShouldClose, WindowCall.SwapBuffers, WindowCall.PollEvents,
                       WindowCall.ShouldClose],
            queries := 2 }) := by
  decide

/-- C6 (amended): when construction fails (library init or window creation),
the failure is reported only by the diagnostic on the error stream; `main`
still calls `Run`, which makes the same `Window` member calls as on a usable
window (`k` repetitions of `ShouldClose`, `SwapBuffers`, `PollEvents` and a
final `ShouldClose` when the answers are `k` times `false` and then `true`),
and once `Run` has returned `main` returns status 0. -/
theorem main_after_failed_construction (n : Native) (answers : Nat → Bool) (k fuel : Nat)
    (s : World)
    (hfail : n.glfwInit = false ∨ n.glfwCreateWindow = none)
    (hfalse : ∀ i, i < k → answers (s.queries + i) = false)
    (htrue : answers (s.queries + k) = true)
    (hfuel : k < fuel) :
    ∃ s1,
      Sandbox.main n answers fuel s = some (0, s1) ∧
      s1.window = s.window
        ++ (List.replicate k
              [WindowCall.ShouldClose, WindowCall.SwapBuffers, WindowCall.PollEvents]).flatten
        ++ [WindowCall.ShouldClose] ∧
      s1.cerr = s.cerr ++ [if n.glfwInit = false then "Failed to initialize GLFW"
                           else "Failed to create GLFW window"] := by
  obtain ⟨hw, hq⟩ := Construct_frame n Sandbox.WINDOW_WIDTH Sandbox.WINDOW_HEIGHT
    Sandbox.WINDOW_TITLE s
  have hrun := Run_unroll answers k fuel
    ⟨(Window.Construct n Sandbox.WINDOW_WIDTH Sandbox.WINDOW_HEIGHT Sandbox.WINDOW_TITLE s).1⟩
    (Window.Construct n Sandbox.WINDOW_WIDTH Sandbox.WINDOW_HEIGHT Sandbox.WINDOW_TITLE s).2
    (by rw [hq]; exact hfalse) (by rw [hq]; exact htrue) hfuel
  have hcerr := Construct_cerr n Sandbox.WINDOW_WIDTH Sandbox.WINDOW_HEIGHT
    Sandbox.WINDOW_TITLE s
  refine ⟨Engine.Destruct
      ⟨(Window.Construct n Sandbox.WINDOW_WIDTH Sandbox.WINDOW_HEIGHT Sandbox.WINDOW_TITLE s).1⟩
      { native := (Window.Construct n Sandbox.WINDOW_WIDTH Sandbox.WINDOW_HEIGHT
                    Sandbox.WINDOW_TITLE s).2.native
                  ++ frames (Window.Construct n Sandbox.WINDOW_WIDTH Sandbox.WINDOW_HEIGHT
                    Sandbox.WINDOW_TITLE s).1.window k,
        cerr := (Window.Construct n Sandbox.WINDOW_WIDTH Sandbox.WINDOW_HEIGHT
                    Sandbox.WINDOW_TITLE s).2.cerr,
        window := (Window.Construct n Sandbox.WINDOW_WIDTH Sandbox.WINDOW_HEIGHT
                    Sandbox.WINDOW_TITLE s).2.window
                  ++ iterations k ++ [WindowCall.ShouldClose],
        queries := (Window.Construct n Sandbox.WINDOW_WIDTH Sandbox.WINDOW_HEIGHT
                    Sandbox.WINDOW_TITLE s).2.queries + k + 1 }, ?_, ?_, ?_⟩
  · simp only [Sandbox.main, Engine.Construct, hrun]
  · simp [Engine.Destruct, Window.Destruct, glfwDestroyWindow, glfwTerminate, World.call, hw,
      iterations]
  · simp only [Engine.Destruct, Window.Destruct, glfwDestroyWindow, glfwTerminate, World.call,
      hcerr]
    rcases hfail with h | h
    · simp [h]
    · cases hi : n.glfwInit <;> simp [h, hi]

/-- Witness for C6 (amended): window creation fails, two frames are run. -/
theorem main_after_failed_construction_witness :
    ∃ s1,
      Sandbox.main ⟨true, none, true⟩ (fun k => decide (2 ≤ k)) 3 World.start = some (0, s1) ∧
      s1.window = World.start.window
        ++ (List.replicate 2
              [WindowCall.ShouldClose, WindowCall.SwapBuffers, WindowCall.PollEvents]).flatten
        ++ [WindowCall.ShouldClose] ∧
      s1.cerr = World.start.cerr
        ++ [if (⟨true, none, true⟩ : Native).glfwInit = false then "Failed to initialize GLFW"
            else "Failed to create GLFW window"] :=
  main_after_failed_construction ⟨true, none, true⟩ (fun k => decide (2 ≤ k)) 2 3 World.start
    (Or.inr rfl) (by intro i hi; simp [World.start]; omega) (by simp [World.start]) (by decide)

end Engine
